import Mathlib

set_option linter.unusedVariables false

/-!
Verification development for the task-bot repository (aiogram task tracker).

We give a shallow embedding of the parts of the code base that the checked
properties concern:

* `database/database_manager.py` — `search_tasks`, `add_user`,
  `get_user_by_id`, `add_task` over an explicit list-of-rows store;
* `handlers/tasks_handlers/tasks_utils.py` — pagination helpers;
* `handlers/tasks_handlers/search_task_handler.py` — the search dialogue:
  criteria snapshotting, page navigation, listing;
* `handlers/tasks_handlers/add_task_handler.py` — the add-task dialogue;
* `handlers/registration_handler/registration_handlers.py` — registration.

The aiogram `FSMContext` data bag (a string-keyed dict per user) is embedded
as a structure with one `Option` field per key the embedded code reads or
writes; `state.set_data(d)` replaces the whole bag, `state.update_data(k=v)`
sets one field.  Python falsiness of a missing/empty value is rendered with
`Option.getD` plus emptiness tests at each use site, following the source.
-/

namespace TaskBot

/-- A task row (`database/models.py`, class `Task`), with its attached tag
names (`Task.tags` via the `task_tags` association; tag rows are identified
by name, so we keep the list of names). -/
structure Task where
  name : String
  user_id : Nat
  is_completed : Bool
  tags : List String
  deriving DecidableEq, Repr

/-- A user row (`database/models.py`, class `User`). -/
structure User where
  id : Nat
  name : String
  phone : String
  deriving DecidableEq, Repr

/-- ASCII lower-casing of one character (the model of SQL `LOWER` /
Python `str.lower()`; the checked properties use ASCII data). -/
def lowerChar (c : Char) : Char :=
  if 65 ≤ c.toNat ∧ c.toNat ≤ 90 then Char.ofNat (c.toNat + 32) else c

/-- A string, lower-cased, as a character list. -/
def str_lower (s : String) : List Char := s.toList.map lowerChar

/-- Case-insensitive substring test: the semantics of the SQL expression
`Task.name.ilike(f"%w%")` in `search_tasks` (keywords contain no `%`/`_`
LIKE wildcards in the checked properties, so `ilike` is lowercase substring
containment). -/
def ilikeContains (name w : String) : Bool :=
  decide (str_lower w <:+: str_lower name)

/-- `database_manager.search_tasks(user_id, query, tags)` over an explicit
store `db`.  Source (`database/database_manager.py:222`):
`if not query and not tags: raise ValueError(...)`; otherwise the SQL query
selects the user's tasks and filters by `or_` over one `ilike` condition per
query word plus one `or_` of `Tag.name == tag` conditions when `tags` is
non-empty.  An empty `query` (resp. `tags`) contributes no condition, which
is exactly `List.any` over the empty list being `false`. -/
def search_tasks (db : List Task) (user_id : Nat) (query : List String)
    (tags : List String) : Except Unit (List Task) :=
  if query.isEmpty && tags.isEmpty then .error ()
  else
    let base := db.filter (fun t => t.user_id == user_id)
    .ok (base.filter (fun t =>
      query.any (fun w => ilikeContains t.name w)
        || tags.any (fun g => t.tags.any (fun tn => tn == g))))

/-- `database_manager.add_user`: inserts the row unless a user with the same
id exists (the `IntegrityError` branch rolls back, leaving the store
unchanged). -/
def add_user (users : List User) (user_id : Nat) (name phone : String) :
    List User :=
  if users.any (fun u => u.id == user_id) then users
  else users ++ [⟨user_id, name, phone⟩]

/-- `database_manager.get_user_by_id`. -/
def get_user_by_id (users : List User) (user_id : Nat) : Option User :=
  users.find? (fun u => u.id == user_id)

/-- `database_manager.add_task`: no-op when the user does not exist,
otherwise appends the task.  Tag rows are deduplicated by name in the
source (`set(tags) - existing`); the task's attached tag-name set equals
the set of names in `tags`, so we attach `tags` itself (membership in
`Task.tags` is what the search logic consumes). -/
def add_task (users : List User) (db : List Task) (user_id : Nat)
    (name : String) (tags : List String) : List Task :=
  if (get_user_by_id users user_id).isNone then db
  else db ++ [⟨name, user_id, false, tags⟩]

/-- `tasks_utils.get_total_pages_from_tasks_by_page_size`:
`(len(tasks) + page_size - 1) // page_size` (Python floor division on
non-negative operands = `Nat` division). -/
def get_total_pages_from_tasks_by_page_size (tasks : List Task)
    (page_size : Nat) : Nat :=
  (tasks.length + page_size - 1) / page_size

/-- `tasks_utils.paginate_tasks`: the Python slice
`tasks[current_page*page_size : current_page*page_size + page_size]`
(indices are non-negative here). -/
def paginate_tasks (tasks : List Task) (current_page page_size : Nat) :
    List Task :=
  (tasks.drop (current_page * page_size)).take page_size

/-- `tasks_utils.prepare_tasks_text`: the rendered page text. -/
def prepare_tasks_text (tasks : List Task) : String :=
  (tasks.foldl
    (fun (acc : String × Nat) t =>
      let txt := acc.1 ++ "\n" ++ toString acc.2 ++ ". <b>" ++ t.name ++ "</b>\n"
      let txt := if t.tags.isEmpty then txt
        else txt ++ "<i>Теги:</i>\n    ◦ "
          ++ String.intercalate "\n    ◦ "
              (t.tags.map (fun g => "<code>" ++ g ++ "</code>"))
          ++ "\n"
      (txt, acc.2 + 1))
    ("<b>Ваши задачи:</b>", 1)).1

/-- The conversation states reachable in the embedded handlers
(`basic_state.start_menu`, `RegistrationStates`, `AddTaskStates`,
`SearchStates`). -/
inductive FsmState where
  | startMenu
  | regAwaitingName
  | regAwaitingPhone
  | regRegistered
  | addWaitingName
  | addWaitingTags
  | searchWaitingQuery
  | searchWaitingTags
  | searchListing
  deriving DecidableEq, Repr

/-- The per-user `FSMContext` data bag: one optional field per dict key the
embedded handlers read or write.  `none` = key absent.  `username` is read
(with default `""`) by `registration_handlers.handle_phone` but never
written anywhere in the code base. -/
structure SessionData where
  keywords : Option (List String) := none
  tags : Option (List String) := none
  keywords_and_tags : Option (List String × List String) := none
  page_search_list : Option Nat := none
  last_page_search_list : Option Nat := none
  page : Option Nat := none
  task_name : Option String := none
  name : Option String := none
  phone : Option String := none
  username : Option String := none
  deriving DecidableEq, Repr

/-- A user's conversation session: current FSM state (`none` after
`state.clear()`) plus the data bag. -/
structure Session where
  fsm : Option FsmState := none
  data : SessionData := {}
  deriving DecidableEq, Repr

/-- Outcome of one run of `search_task_handler._handle_list_tasks`. -/
inductive ListOutcome where
  /-- `search_tasks` raised `ValueError` (neither keywords nor tags):
  the dialogue is aborted. -/
  | invalidQuery
  /-- The search succeeded but returned no tasks. -/
  | noTasks
  /-- A page was rendered: the tasks of the page, the current page index
  and the total page count. -/
  | displayed (page_tasks : List Task) (current_page total_pages : Nat)
  deriving DecidableEq, Repr

/-- Result of one listing/navigation event: the session afterwards, the
outcome, every `(keywords, tags)` criteria pair passed to the store's
`search_tasks` during the event, and the final text answered to the user. -/
structure ListResult where
  session : Session
  outcome : ListOutcome
  searchCalls : List (List String × List String)
  message : String
  deriving DecidableEq, Repr

/-- Message of `_search_tasks_or_handle_error`'s `ValueError` branch. -/
def invalid_query_message : String :=
  "И теги, и ключевые слова не могут быть пустыми."

/-- Message of `_handle_no_tasks_found`. -/
def no_tasks_message : String :=
  "Задачи, соответствующие заданным критериям, не найдены."

/-- `search_task_handler._get_search_criteria`.  Reads the scratch fields
`keywords`/`tags`; when either is (Python-)truthy it wipes the bag with
three consecutive `state.set_data` calls — each one REPLACES the whole
bag, so only the last (`{"tags": []}`) survives — and then stores the
snapshot under `keywords_and_tags`; otherwise the criteria come from the
previously stored `keywords_and_tags` snapshot (default `([], [])`). -/
def get_search_criteria (s : Session) :
    Session × (List String × List String) :=
  let keywords := s.data.keywords.getD []
  let tags := s.data.tags.getD []
  if !keywords.isEmpty || !tags.isEmpty then
    -- set_data({"keywords_and_tags": ()}); set_data({"keywords": []});
    -- set_data({"tags": []}) — the first two bags are dead stores.
    let d : SessionData := { tags := some [] }
    let d := { d with keywords_and_tags := some (keywords, tags) }
    ({ s with data := d }, (keywords, tags))
  else
    (s, s.data.keywords_and_tags.getD ([], []))

/-- `search_task_handler._display_tasks` (state effects and rendered data;
message delivery/editing is transport).  Note the final
`state.update_data(page=current_page)` and `state.set_state(start_menu)`. -/
def display_tasks (s : Session) (tasks : List Task) :
    Session × (List Task × Nat × Nat) × String :=
  let current_page := s.data.page_search_list.getD 0
  let page_size := 5
  let total_pages := get_total_pages_from_tasks_by_page_size tasks page_size
  let last_page := total_pages - 1
  let d := if s.data.last_page_search_list.isNone
    then { s.data with last_page_search_list := some last_page }
    else s.data
  let tasks_for_page := paginate_tasks tasks current_page page_size
  let tasks_text := prepare_tasks_text tasks_for_page
  let d := { d with page := some current_page }
  (⟨some .startMenu, d⟩, (tasks_for_page, current_page, total_pages),
    tasks_text)

/-- `search_task_handler._handle_list_tasks`: extract criteria, call the
store's `search_tasks` (`_search_tasks_or_handle_error`: on `ValueError`
answer, `state.clear()`, `state.set_state(start_menu)`, abort), handle the
empty result (`_handle_no_tasks_found`: answer, clear, start menu), else
display.  `called_after_search` only selects answer-vs-edit delivery. -/
def handle_list_tasks (db : List Task) (user_id : Nat) (s : Session)
    (_called_after_search : Bool) : ListResult :=
  let gc := get_search_criteria s
  let s1 := gc.1
  let criteria := gc.2
  match search_tasks db user_id criteria.1 criteria.2 with
  | .error _ =>
      { session := ⟨some .startMenu, {}⟩, outcome := .invalidQuery,
        searchCalls := [criteria], message := invalid_query_message }
  | .ok tasks =>
      if tasks.isEmpty then
        { session := ⟨some .startMenu, {}⟩, outcome := .noTasks,
          searchCalls := [criteria], message := no_tasks_message }
      else
        let dt := display_tasks s1 tasks
        { session := dt.1,
          outcome := .displayed dt.2.1.1 dt.2.1.2.1 dt.2.1.2.2,
          searchCalls := [criteria], message := dt.2.2 }

/-- The page-index update of `next_page_button_handler`
(`search_task_handler.py:258`): wrap to 0 from the last page. -/
def next_page_update (current_page last_page : Nat) : Nat :=
  if current_page = last_page then 0 else current_page + 1

/-- The page-index update of `prev_page_button_handler`
(`search_task_handler.py:289`): wrap to the last page from 0. -/
def prev_page_update (current_page last_page : Nat) : Nat :=
  if current_page = 0 then last_page else current_page - 1

/-- The state/session part of `next_page_button_handler` before it calls
`_handle_list_tasks`: read `page_search_list`/`last_page_search_list`
(defaults 0), store the updated page, set state `listing_tasks`. -/
def next_page_session_update (s : Session) : Session :=
  let current_page := s.data.page_search_list.getD 0
  let last_page := s.data.last_page_search_list.getD 0
  ⟨some .searchListing,
    { s.data with
        page_search_list := some (next_page_update current_page last_page) }⟩

/-- The state/session part of `prev_page_button_handler`. -/
def prev_page_session_update (s : Session) : Session :=
  let current_page := s.data.page_search_list.getD 0
  let last_page := s.data.last_page_search_list.getD 0
  ⟨some .searchListing,
    { s.data with
        page_search_list := some (prev_page_update current_page last_page) }⟩

/-- `next_page_button_handler`: update the page, set `listing_tasks`,
re-list. -/
def next_page_button_handler (db : List Task) (user_id : Nat) (s : Session) :
    ListResult :=
  handle_list_tasks db user_id (next_page_session_update s) false

/-- `prev_page_button_handler`. -/
def prev_page_button_handler (db : List Task) (user_id : Nat) (s : Session) :
    ListResult :=
  handle_list_tasks db user_id (prev_page_session_update s) false

/-- `end_search_button_handler`: set `listing_tasks`, then list with
`called_after_search=True`. -/
def end_search_button_handler (db : List Task) (user_id : Nat)
    (s : Session) : ListResult :=
  handle_list_tasks db user_id { s with fsm := some .searchListing } true

/-- `end_task_list_button_handler`: `state.clear()` (empties state and
data), then `state.set_state(start_menu)`. -/
def end_task_list_button_handler (_s : Session) : Session :=
  ⟨some .startMenu, {}⟩

/-- `add_task_handler._clean_state`: two consecutive `state.set_data`
calls — `{"task_name": ""}` then `{"tags": []}`.  Each `set_data`
replaces the whole bag, so the first is a dead store and the bag ends as
exactly `{"tags": []}` (no `task_name` key). -/
def add_task_clean_state (s : Session) : Session :=
  let _dead : SessionData := { task_name := some "" }
  let d : SessionData := { tags := some [] }
  { s with data := d }

/-- `add_task_handler.handle_name` (state `waiting_name`): empty text
re-prompts without change; otherwise `_clean_state`, store `task_name`,
advance to `waiting_tags`. -/
def add_task_handle_name (s : Session) (text : String) : Session :=
  if text = "" then s
  else
    let s := add_task_clean_state s
    let s := { s with data := { s.data with task_name := some text } }
    { s with fsm := some .addWaitingTags }

/-- `add_task_handler.handle_tags` (state `waiting_tags`): empty text
re-prompts; otherwise append the message verbatim to the bag's tag list. -/
def add_task_handle_tags (s : Session) (text : String) : Session :=
  if text = "" then s
  else
    { s with data :=
        { s.data with tags := some (s.data.tags.getD [] ++ [text]) } }

/-- `add_task_handler.end_tags_callback`: read `task_name` and `tags` from
the bag; a missing/empty name is only reported (`if not task_name`);
otherwise commit via `add_task`, `_clean_state`, and set `start_menu`
(the `state.clear()` line is commented out in the source). -/
def end_tags_callback (users : List User) (db : List Task) (user_id : Nat)
    (s : Session) : List Task × Session :=
  let task_name := s.data.task_name
  let tags := s.data.tags.getD []
  match task_name with
  | none => (db, s)
  | some n =>
      if n = "" then (db, s)
      else
        let db := add_task users db user_id n tags
        let s := add_task_clean_state s
        (db, { s with fsm := some .startMenu })

/-! Phone validation (`registration_handlers._is_valid_phone`):
`re.match` of
`^(\+7|7|8)?[\s\-]?\(?[489][0-9]{2}\)?[\s\-]?[0-9]{3}[\s\-]?[0-9]{2}[\s\-]?[0-9]{2}$`.
We embed the regex as a nondeterministic matcher over the sets of possible
remainders; `$` is modelled as end-of-input. -/

/-- Strip an exact literal prefix. -/
def stripLit : List Char → List Char → Option (List Char)
  | [], s => some s
  | _ :: _, [] => none
  | a :: as, b :: bs => if a = b then stripLit as bs else none

/-- One (optional) literal-alternatives step of the matcher: from each
possible remainder, keep it (if the group is optional) and/or strip each
alternative. -/
def litStep (alts : List (List Char)) (opt : Bool)
    (rems : List (List Char)) : List (List Char) :=
  (rems.map (fun r =>
    (if opt then [r] else []) ++ alts.filterMap (fun a => stripLit a r))).flatten

/-- One (optional) character-class step of the matcher. -/
def classStep (p : Char → Bool) (opt : Bool)
    (rems : List (List Char)) : List (List Char) :=
  (rems.map (fun r =>
    (if opt then [r] else []) ++
      match r with
      | [] => []
      | c :: rest => if p c then [rest] else [])).flatten

/-- `[\s\-]`: Python `\s` (ASCII range) or a dash. -/
def sepChar (c : Char) : Bool :=
  c = ' ' || c = '\t' || c = '\n' || c = '\r' || c = '\x0b' || c = '\x0c'
    || c = '-'

/-- `[0-9]`. -/
def digitChar (c : Char) : Bool := '0' ≤ c && c ≤ '9'

/-- `registration_handlers._is_valid_phone`. -/
def is_valid_phone (phone : String) : Bool :=
  let r := [phone.toList]
  let r := litStep [['+', '7'], ['7'], ['8']] true r
  let r := classStep sepChar true r
  let r := litStep [['(']] true r
  let r := classStep (fun c => c = '4' || c = '8' || c = '9') false r
  let r := classStep digitChar false (classStep digitChar false r)
  let r := litStep [[')']] true r
  let r := classStep sepChar true r
  let r := classStep digitChar false
    (classStep digitChar false (classStep digitChar false r))
  let r := classStep sepChar true r
  let r := classStep digitChar false (classStep digitChar false r)
  let r := classStep sepChar true r
  let r := classStep digitChar false (classStep digitChar false r)
  r.any (fun rem => rem.isEmpty)

/-- `registration_handlers.handle_name` (state `awaiting_name`): empty
text re-prompts; otherwise `state.update_data(name=name)` and advance to
`awaiting_phone`. -/
def reg_handle_name (s : Session) (text : String) : Session :=
  if text = "" then s
  else
    let s := { s with data := { s.data with name := some text } }
    { s with fsm := some .regAwaitingPhone }

/-- `registration_handlers._clean_state`: `update_data(name="", phone="")`
then `set_state(awaiting_name)`. -/
def reg_clean_state (s : Session) : Session :=
  ⟨some .regAwaitingName, { s.data with name := some "", phone := some "" }⟩

/-- `registration_handlers.handle_phone` (state `awaiting_phone`): empty
or invalid phone re-prompts; otherwise store the phone, read the display
name as `state_data.get("username", "")` — the `username` key, which
`handle_name` never wrote (it stored the name under `name`) — and run
`_complete_registration`: `add_user`, `get_user_by_id`, `_clean_state`,
and `set_state(start_menu)` when the user row is found. -/
def reg_handle_phone (users : List User) (s : Session) (user_id : Nat)
    (text : String) : List User × Session :=
  if text = "" then (users, s)
  else if !is_valid_phone text then (users, s)
  else
    let s := { s with data := { s.data with phone := some text } }
    let user_name := s.data.username.getD ""
    let users := add_user users user_id user_name text
    let found := get_user_by_id users user_id
    let s := reg_clean_state s
    match found with
    | none => (users, s)
    | some _ => (users, { s with fsm := some .startMenu })

/-! ### Shared sample data for concrete evaluations -/

/-- Sample task whose name matches the keyword `report`. -/
def sampleTask1 : Task := ⟨"Report Q1", 1, false, ["work"]⟩

/-- Sample task carrying the tag `report` but not matching the keyword. -/
def sampleTask2 : Task := ⟨"Buy milk", 1, false, ["report"]⟩

/-- Sample store. -/
def sampleDb : List Task := [sampleTask1, sampleTask2]

/-! ### Helper lemmas -/

/-- Membership characterization of a successful `search_tasks` call. -/
theorem search_tasks_ok_mem (db : List Task) (user_id : Nat)
    (query tags : List String) (hne : ¬(query = [] ∧ tags = [])) :
    ∃ res, search_tasks db user_id query tags = .ok res ∧
      ∀ t, t ∈ res ↔ t ∈ db ∧ t.user_id = user_id ∧
        ((∃ w ∈ query, str_lower w <:+: str_lower t.name) ∨
          (∃ g ∈ tags, g ∈ t.tags)) := by
  have hcond : (query.isEmpty && tags.isEmpty) = false := by
    rcases query with _ | _ <;> rcases tags with _ | _ <;>
      simp_all [List.isEmpty]
  refine ⟨(db.filter (fun t => t.user_id == user_id)).filter
      (fun t => query.any (fun w => ilikeContains t.name w)
        || tags.any (fun g => t.tags.any (fun tn => tn == g))), ?_, ?_⟩
  · simp [search_tasks, hcond]
  · intro t
    simp only [List.mem_filter, List.any_eq_true, ilikeContains,
      decide_eq_true_eq, beq_iff_eq, Bool.or_eq_true, and_assoc]
    constructor
    · rintro ⟨hdb, huid, hcond⟩
      refine ⟨hdb, huid, ?_⟩
      rcases hcond with h | h
      · exact Or.inl h
      · obtain ⟨g, hg, tn, htn, hEq⟩ := h
        exact Or.inr ⟨g, hg, hEq ▸ htn⟩
    · rintro ⟨hdb, huid, hcond⟩
      refine ⟨hdb, huid, ?_⟩
      rcases hcond with h | h
      · exact Or.inl h
      · obtain ⟨g, hg, hmem⟩ := h
        exact Or.inr ⟨g, hg, g, hmem, rfl⟩

/-! ### C1 — combined keyword/tag OR-filter -/

/-- C1: with both a non-empty keyword list and a non-empty tag list,
`search_tasks` returns exactly the user's tasks satisfying the keyword
condition (some keyword is a case-insensitive substring of the task name)
OR the tag condition; in particular a task matching only a supplied tag
and no keyword is included. -/
theorem c1_search_or_semantics (db : List Task) (user_id : Nat)
    (query tags : List String) (hq : query ≠ []) (ht : tags ≠ []) :
    ∃ res, search_tasks db user_id query tags = .ok res ∧
      (∀ t, t ∈ res ↔ t ∈ db ∧ t.user_id = user_id ∧
        ((∃ w ∈ query, str_lower w <:+: str_lower t.name) ∨
          (∃ g ∈ tags, g ∈ t.tags))) ∧
      (∀ t, t ∈ db → t.user_id = user_id →
        (∃ g ∈ tags, g ∈ t.tags) → t ∈ res) := by
  obtain ⟨res, hres, hmem⟩ :=
    search_tasks_ok_mem db user_id query tags (fun h => hq h.1)
  refine ⟨res, hres, hmem, ?_⟩
  intro t hdb huid htag
  exact (hmem t).mpr ⟨hdb, huid, Or.inr htag⟩

/-- Witness for C1 on the sample store: keywords `["report"]`, tags
`["report"]`; `sampleTask2` matches only the tag and is included. -/
theorem c1_witness :
    ∃ res, search_tasks sampleDb 1 ["report"] ["report"] = .ok res ∧
      (∀ t, t ∈ res ↔ t ∈ sampleDb ∧ t.user_id = 1 ∧
        ((∃ w ∈ ["report"], str_lower w <:+: str_lower t.name) ∨
          (∃ g ∈ ["report"], g ∈ t.tags))) ∧
      (∀ t, t ∈ sampleDb → t.user_id = 1 →
        (∃ g ∈ ["report"], g ∈ t.tags) → t ∈ res) :=
  c1_search_or_semantics sampleDb 1 ["report"] ["report"]
    (by decide) (by decide)

/-! ### C2 — total pages -/

/-- C2 counterexample: for zero items and page size 5 the code returns
`(0 + 5 - 1) // 5 = 0`, not the claimed minimum of 1. -/
theorem c2_counterexample :
    get_total_pages_from_tasks_by_page_size ([] : List Task) 5 = 0 ∧
    get_total_pages_from_tasks_by_page_size ([] : List Task) 5 ≠ 1 := by
  constructor <;> decide

/-- C2 (amended): for every page size `p > 0`,
`get_total_pages_from_tasks_by_page_size` returns `ceil(n/p)` with NO
minimum clause: it is `0` for `n = 0`, and for `n > 0` it is the unique
`g > 0` with `(g-1)*p < n ≤ g*p`. -/
theorem c2_total_pages_ceil (tasks : List Task) (p : Nat) (hp : 0 < p) :
    (tasks.length = 0 → get_total_pages_from_tasks_by_page_size tasks p = 0) ∧
    (0 < tasks.length →
      0 < get_total_pages_from_tasks_by_page_size tasks p ∧
      tasks.length ≤ get_total_pages_from_tasks_by_page_size tasks p * p ∧
      (get_total_pages_from_tasks_by_page_size tasks p - 1) * p
        < tasks.length) := by
  unfold get_total_pages_from_tasks_by_page_size
  constructor
  · intro h0
    rw [h0, Nat.zero_add]
    exact Nat.div_eq_of_lt (Nat.sub_lt hp Nat.one_pos)
  · intro h1
    have hdm := Nat.div_add_mod (tasks.length + p - 1) p
    have hr : (tasks.length + p - 1) % p < p := Nat.mod_lt _ hp
    have hq1 : 0 < (tasks.length + p - 1) / p := by
      rcases Nat.eq_zero_or_pos ((tasks.length + p - 1) / p) with h | h
      · rw [h, Nat.mul_zero, Nat.zero_add] at hdm
        omega
      · exact h
    have key : tasks.length ≤ p * ((tasks.length + p - 1) / p) ∧
        p * ((tasks.length + p - 1) / p) - p < tasks.length := by
      generalize p * ((tasks.length + p - 1) / p) = t at hdm
      omega
    refine ⟨hq1, ?_, ?_⟩
    · rw [Nat.mul_comm]
      exact key.1
    · rw [Nat.sub_one_mul, Nat.mul_comm]
      exact key.2

/-- Witness for C2 (amended) at 12 tasks, page size 5 (total pages 3). -/
theorem c2_witness :
    0 < get_total_pages_from_tasks_by_page_size
        (List.replicate 12 sampleTask1) 5 ∧
    (List.replicate 12 sampleTask1).length
      ≤ get_total_pages_from_tasks_by_page_size
          (List.replicate 12 sampleTask1) 5 * 5 ∧
    (get_total_pages_from_tasks_by_page_size
        (List.replicate 12 sampleTask1) 5 - 1) * 5
      < (List.replicate 12 sampleTask1).length :=
  (c2_total_pages_ceil (List.replicate 12 sampleTask1) 5 (by decide)).2
    (by decide)

/-! ### C3 — navigation wrap-around -/

/-- Iterating the next-page update from page 0 walks `0,1,…,k` while
`k ≤ last_page`. -/
theorem iterate_next_page_eq (last_page k : Nat) (hk : k ≤ last_page) :
    (fun c => next_page_update c last_page)^[k] 0 = k := by
  induction k with
  | zero => rfl
  | succ k ih =>
    rw [Function.iterate_succ_apply', ih (Nat.le_of_succ_le hk)]
    unfold next_page_update
    rw [if_neg (by omega)]

/-- C3: with `last_page = total_pages - 1` (and at least one page), the
next-page event maps the last page to 0 and any other page to its
successor, the previous-page event maps page 0 to the last page and any
other page to its predecessor, and from page 0 exactly `total_pages`
next-page events visit every page index and return to page 0. -/
theorem c3_wraparound_cycle (total_pages last_page : Nat)
    (htot : 0 < total_pages) (hlast : last_page = total_pages - 1) :
    next_page_update last_page last_page = 0 ∧
    (∀ c, c ≠ last_page → next_page_update c last_page = c + 1) ∧
    prev_page_update 0 last_page = last_page ∧
    (∀ c, c ≠ 0 → prev_page_update c last_page = c - 1) ∧
    (fun c => next_page_update c last_page)^[total_pages] 0 = 0 ∧
    (∀ p, p ≤ last_page → ∃ k, k < total_pages ∧
      (fun c => next_page_update c last_page)^[k] 0 = p) := by
  have htotal : total_pages = last_page + 1 := by omega
  refine ⟨?_, ?_, ?_, ?_, ?_, ?_⟩
  · unfold next_page_update
    rw [if_pos rfl]
  · intro c hc
    unfold next_page_update
    rw [if_neg hc]
  · unfold prev_page_update
    rw [if_pos rfl]
  · intro c hc
    unfold prev_page_update
    rw [if_neg hc]
  · rw [htotal, Function.iterate_succ_apply',
      iterate_next_page_eq last_page last_page le_rfl]
    unfold next_page_update
    rw [if_pos rfl]
  · intro p hp
    exact ⟨p, by omega, iterate_next_page_eq last_page p hp⟩

/-- Witness for C3 at `total_pages = 3`, `last_page = 2`. -/
theorem c3_witness :
    next_page_update 2 2 = 0 ∧
    (∀ c, c ≠ 2 → next_page_update c 2 = c + 1) ∧
    prev_page_update 0 2 = 2 ∧
    (∀ c, c ≠ 0 → prev_page_update c 2 = c - 1) ∧
    (fun c => next_page_update c 2)^[3] 0 = 0 ∧
    (∀ p, p ≤ 2 → ∃ k, k < 3 ∧ (fun c => next_page_update c 2)^[k] 0 = p) :=
  c3_wraparound_cycle 3 2 (by decide) (by decide)

/-! ### Listing-machinery helper lemmas -/

/-- Every run of `_handle_list_tasks` calls the store's `search_tasks`
exactly once, with the criteria produced by `_get_search_criteria`. -/
theorem handle_list_tasks_searchCalls (db : List Task) (user_id : Nat)
    (s : Session) (b : Bool) :
    (handle_list_tasks db user_id s b).searchCalls
      = [(get_search_criteria s).2] := by
  unfold handle_list_tasks
  dsimp only
  split
  · rfl
  · split <;> rfl

/-- Every run of `_handle_list_tasks` leaves the FSM in `start_menu`:
the invalid-query and no-tasks branches clear and set `start_menu`, and
`_display_tasks` ends with `state.set_state(start_menu)`. -/
theorem handle_list_tasks_fsm (db : List Task) (user_id : Nat)
    (s : Session) (b : Bool) :
    (handle_list_tasks db user_id s b).session.fsm = some .startMenu := by
  unfold handle_list_tasks
  dsimp only
  split
  · rfl
  · split
    · rfl
    · rfl

/-- When both scratch fields are (Python-)empty, `_get_search_criteria`
leaves the session unchanged and returns the frozen
`keywords_and_tags` snapshot (default `([], [])`). -/
theorem get_search_criteria_of_scratch_empty (s : Session)
    (hkw : s.data.keywords.getD [] = []) (htg : s.data.tags.getD [] = []) :
    get_search_criteria s = (s, s.data.keywords_and_tags.getD ([], [])) := by
  unfold get_search_criteria
  dsimp only
  rw [hkw, htg]
  rfl

/-! ### C4 — invalid-query condition -/

/-- C4: `search_tasks` fails iff both the keyword list and the tag list
are empty; when the listing step runs with empty criteria the dialogue
aborts: outcome `invalidQuery` (no task list), session cleared and set to
the idle `start_menu`, and the message differs from the empty-results
message. -/
theorem c4_invalid_query (db : List Task) (user_id : Nat)
    (query tags : List String) (s : Session) (b : Bool)
    (hkw : s.data.keywords.getD [] = []) (htg : s.data.tags.getD [] = [])
    (hsnap : s.data.keywords_and_tags.getD ([], []) = ([], [])) :
    (search_tasks db user_id query tags = .error ()
      ↔ query = [] ∧ tags = []) ∧
    (handle_list_tasks db user_id s b).outcome = .invalidQuery ∧
    (handle_list_tasks db user_id s b).session = ⟨some .startMenu, {}⟩ ∧
    (handle_list_tasks db user_id s b).message = invalid_query_message ∧
    invalid_query_message ≠ no_tasks_message := by
  have hiff : search_tasks db user_id query tags = .error ()
      ↔ query = [] ∧ tags = [] := by
    rcases query with _ | ⟨q, qs⟩ <;> rcases tags with _ | ⟨g, gs⟩ <;>
      simp [search_tasks]
  have hcrit := get_search_criteria_of_scratch_empty s hkw htg
  have hrun : handle_list_tasks db user_id s b
      = { session := ⟨some .startMenu, {}⟩, outcome := .invalidQuery,
          searchCalls := [([], [])], message := invalid_query_message } := by
    unfold handle_list_tasks
    dsimp only
    rw [hcrit, hsnap]
    rfl
  rw [hrun]
  exact ⟨hiff, rfl, rfl, rfl, by decide⟩

/-- Witness for C4: empty criteria (`["x"]`/`[]` for the iff part is a
non-failing pair; the session has no scratch fields and no snapshot). -/
theorem c4_witness :
    (search_tasks sampleDb 1 ["x"] [] = .error () ↔ ["x"] = [] ∧ ([] : List String) = []) ∧
    (handle_list_tasks sampleDb 1 ⟨some .searchListing, {}⟩ false).outcome
      = .invalidQuery ∧
    (handle_list_tasks sampleDb 1 ⟨some .searchListing, {}⟩ false).session
      = ⟨some .startMenu, {}⟩ ∧
    (handle_list_tasks sampleDb 1 ⟨some .searchListing, {}⟩ false).message
      = invalid_query_message ∧
    invalid_query_message ≠ no_tasks_message :=
  c4_invalid_query sampleDb 1 ["x"] [] ⟨some .searchListing, {}⟩ false
    rfl rfl rfl

/-! ### C6 — navigation re-query with frozen criteria -/

/-- A post-snapshot listing session: scratch `tags` emptied by the
snapshot wipe, criteria frozen under `keywords_and_tags`, pagination
cursors present. -/
def c6Session : Session :=
  ⟨some .startMenu,
    { tags := some [], keywords_and_tags := some (["a"], []),
      page_search_list := some 0, last_page_search_list := some 0 }⟩

/-- C6 counterexample: a `next_page` event on a post-snapshot listing
session DOES invoke the durable store's `search_tasks` (once, with the
frozen criteria), contradicting the claim that the search operation is
not invoked again during navigation. -/
theorem c6_counterexample :
    (next_page_button_handler [⟨"abc", 1, false, []⟩] 1 c6Session).searchCalls
      = [(["a"], [])] ∧
    (next_page_button_handler [⟨"abc", 1, false, []⟩] 1 c6Session).searchCalls
      ≠ [] := by
  constructor <;> decide

/-- C6 (amended): on every `next_page`/`prev_page` event over a session
whose scratch keyword/tag fields are empty and whose snapshot is
`(kw, tg)`, the page is recomputed from exactly the frozen pair — the
store's `search_tasks` is re-invoked, once, with `(kw, tg)`, and the
scratch fields do not influence the criteria. -/
theorem c6_frozen_criteria_requery (db : List Task) (user_id : Nat)
    (s : Session) (kw tg : List String)
    (hkw : s.data.keywords.getD [] = []) (htg : s.data.tags.getD [] = [])
    (hsnap : s.data.keywords_and_tags = some (kw, tg)) :
    (next_page_button_handler db user_id s).searchCalls = [(kw, tg)] ∧
    (prev_page_button_handler db user_id s).searchCalls = [(kw, tg)] := by
  have hnext := get_search_criteria_of_scratch_empty
    (next_page_session_update s) hkw htg
  have hprev := get_search_criteria_of_scratch_empty
    (prev_page_session_update s) hkw htg
  constructor
  · rw [next_page_button_handler, handle_list_tasks_searchCalls, hnext]
    have h : (next_page_session_update s).data.keywords_and_tags
        = some (kw, tg) := hsnap
    rw [h]
    rfl
  · rw [prev_page_button_handler, handle_list_tasks_searchCalls, hprev]
    have h : (prev_page_session_update s).data.keywords_and_tags
        = some (kw, tg) := hsnap
    rw [h]
    rfl

/-- Witness for C6 (amended) on the concrete post-snapshot session. -/
theorem c6_witness :
    (next_page_button_handler sampleDb 1 c6Session).searchCalls
      = [(["a"], [])] ∧
    (prev_page_button_handler sampleDb 1 c6Session).searchCalls
      = [(["a"], [])] :=
  c6_frozen_criteria_requery sampleDb 1 c6Session ["a"] [] rfl rfl rfl

/-! ### C8 — listing state between navigation events -/

/-- A search session about to end search with keyword `a` accumulated. -/
def c8Session : Session :=
  ⟨some .searchWaitingQuery, { keywords := some ["a"] }⟩

/-- C8 counterexample: after the "end search" action renders a non-empty
result page, the conversation state is `start_menu`, not
`listing_tasks`. -/
theorem c8_counterexample :
    (end_search_button_handler [⟨"abc", 1, false, []⟩] 1 c8Session).outcome
      = .displayed [⟨"abc", 1, false, []⟩] 0 1 ∧
    (end_search_button_handler [⟨"abc", 1, false, []⟩] 1 c8Session).session.fsm
      = some .startMenu ∧
    some FsmState.startMenu ≠ some FsmState.searchListing := by
  refine ⟨by decide, by decide, by decide⟩

/-- C8 (amended): `next_page`/`prev_page` set `listing_tasks` only
transiently while handling the event; every listing run (hence every
rendered page) ends with the FSM back at the idle `start_menu`, and the
"end listing" action clears the session and sets `start_menu`. -/
theorem c8_listing_state_transient (db : List Task) (user_id : Nat)
    (s : Session) (b : Bool) :
    (next_page_session_update s).fsm = some .searchListing ∧
    (prev_page_session_update s).fsm = some .searchListing ∧
    (handle_list_tasks db user_id s b).session.fsm = some .startMenu ∧
    (next_page_button_handler db user_id s).session.fsm = some .startMenu ∧
    (prev_page_button_handler db user_id s).session.fsm = some .startMenu ∧
    end_task_list_button_handler s = ⟨some .startMenu, {}⟩ :=
  ⟨rfl, rfl, handle_list_tasks_fsm db user_id s b,
    handle_list_tasks_fsm db user_id (next_page_session_update s) false,
    handle_list_tasks_fsm db user_id (prev_page_session_update s) false,
    rfl⟩

/-! ### C5 — registration commits the stored name? -/

/-- C5 divergence, evaluated: a registration run that enters the name
`Alice` (stored by `handle_name` under the `name` key) and the valid phone
`+79161234567` commits a `User` row whose name is `""` — `handle_phone`
reads the never-written `username` key (`state_data.get("username", "")`)
instead of `name` — although the session still holds
`name = some "Alice"` at phone time. -/
theorem c5_registration_commits_empty_name :
    (reg_handle_name ⟨some .regAwaitingName, {}⟩ "Alice").data.name
      = some "Alice" ∧
    (reg_handle_phone [] (reg_handle_name ⟨some .regAwaitingName, {}⟩ "Alice")
        42 "+79161234567").1
      = [⟨42, "", "+79161234567"⟩] ∧
    ("" : String) ≠ "Alice" := by
  refine ⟨rfl, by decide, by decide⟩

/-! ### C7 — dialogue cleanliness after Add-Task commit -/

/-- C7: after an Add-Task commit (`end_tags_callback` with a non-empty
stored task name) the bag holds no `task_name` and an empty tag list, and
the FSM is back at `start_menu`; moreover a freshly started Add-Task
dialogue (its `waiting_name` handler accepting a non-empty name) observes
an empty tag list whatever the previous bag contained. -/
theorem c7_dialogue_cleanliness (users : List User) (db : List Task)
    (user_id : Nat) (s s2 : Session) (n text : String)
    (hname : s.data.task_name = some n) (hn : n ≠ "") (htext : text ≠ "") :
    ((end_tags_callback users db user_id s).2.data.task_name = none ∧
      (end_tags_callback users db user_id s).2.data.tags = some [] ∧
      (end_tags_callback users db user_id s).2.fsm = some .startMenu) ∧
    (add_task_handle_name s2 text).data.tags = some [] := by
  constructor
  · unfold end_tags_callback add_task_clean_state
    rw [hname]
    dsimp only
    rw [if_neg hn]
    exact ⟨rfl, rfl, rfl⟩
  · unfold add_task_handle_name add_task_clean_state
    rw [if_neg htext]

/-- Witness for C7: a commit from a session holding task `t` with a
leftover tag, and a fresh dialogue started over a dirty bag. -/
theorem c7_witness :
    ((end_tags_callback [⟨1, "u", "p"⟩] []
        1 ⟨some .addWaitingTags,
            { task_name := some "t", tags := some ["x"] }⟩).2.data.task_name
        = none ∧
      (end_tags_callback [⟨1, "u", "p"⟩] []
        1 ⟨some .addWaitingTags,
            { task_name := some "t", tags := some ["x"] }⟩).2.data.tags
        = some [] ∧
      (end_tags_callback [⟨1, "u", "p"⟩] []
        1 ⟨some .addWaitingTags,
            { task_name := some "t", tags := some ["x"] }⟩).2.fsm
        = some .startMenu) ∧
    (add_task_handle_name
        ⟨some .addWaitingName, { tags := some ["leftover"] }⟩
        "new task").data.tags = some [] :=
  c7_dialogue_cleanliness [⟨1, "u", "p"⟩] [] 1
    ⟨some .addWaitingTags, { task_name := some "t", tags := some ["x"] }⟩
    ⟨some .addWaitingName, { tags := some ["leftover"] }⟩
    "t" "new task" rfl (by decide) (by decide)

/-- A session whose bag has every field populated (leftovers from search,
listing and registration dialogues). -/
def c10DirtySession : Session :=
  ⟨some .addWaitingName,
    { keywords := some ["k"], tags := some ["g"],
      keywords_and_tags := some (["k"], ["g"]), page_search_list := some 2,
      last_page_search_list := some 4, page := some 2,
      task_name := some "old", name := some "Bob", phone := some "+7",
      username := some "ghost" }⟩

/-! ### C10 — `waiting_name` acceptance replaces the whole data bag -/

/-- C10: when the Add-Task `waiting_name` handler accepts a non-empty
name, the resulting bag holds exactly `task_name` and an empty `tags`
list — every other field (search scratch keywords, frozen snapshot,
pagination cursors, registration fields) is gone, because `_clean_state`
replaces the whole bag. -/
theorem c10_handle_name_frame (s : Session) (text : String)
    (htext : text ≠ "") :
    (add_task_handle_name s text).fsm = some .addWaitingTags ∧
    (add_task_handle_name s text).data.task_name = some text ∧
    (add_task_handle_name s text).data.tags = some [] ∧
    (add_task_handle_name s text).data.keywords = none ∧
    (add_task_handle_name s text).data.keywords_and_tags = none ∧
    (add_task_handle_name s text).data.page_search_list = none ∧
    (add_task_handle_name s text).data.last_page_search_list = none ∧
    (add_task_handle_name s text).data.page = none ∧
    (add_task_handle_name s text).data.name = none ∧
    (add_task_handle_name s text).data.phone = none ∧
    (add_task_handle_name s text).data.username = none := by
  unfold add_task_handle_name add_task_clean_state
  rw [if_neg htext]
  exact ⟨rfl, rfl, rfl, rfl, rfl, rfl, rfl, rfl, rfl, rfl, rfl⟩

/-- Witness for C10 over a fully populated dirty bag. -/
theorem c10_witness :
    (add_task_handle_name c10DirtySession "shopping").fsm
      = some .addWaitingTags ∧
    (add_task_handle_name c10DirtySession "shopping").data.task_name
      = some "shopping" ∧
    (add_task_handle_name c10DirtySession "shopping").data.tags = some [] ∧
    (add_task_handle_name c10DirtySession "shopping").data.keywords = none ∧
    (add_task_handle_name c10DirtySession "shopping").data.keywords_and_tags
      = none ∧
    (add_task_handle_name c10DirtySession "shopping").data.page_search_list
      = none ∧
    (add_task_handle_name c10DirtySession "shopping").data.last_page_search_list
      = none ∧
    (add_task_handle_name c10DirtySession "shopping").data.page = none ∧
    (add_task_handle_name c10DirtySession "shopping").data.name = none ∧
    (add_task_handle_name c10DirtySession "shopping").data.phone = none ∧
    (add_task_handle_name c10DirtySession "shopping").data.username = none :=
  c10_handle_name_frame c10DirtySession "shopping" (by decide)

end TaskBot
